import Mathlib

/-!
Verification of the Snowflake Data Vault validation script (`src/script.py`).

The script is glue code around a SQL engine: it iterates a static list of
table configurations, issues a handful of SQL queries per entry through a
Snowpark session, and reshapes the answers into a fixed output schema.

Shallow embedding choices:
* JSON values are modelled by the inductive `JVal`; Python dictionaries
  (insertion ordered, assignment updates an existing key in place and
  appends a new one at the end) are association lists `List (String × JVal)`
  with `dictSet` / `dictLookup`.
* The Snowpark session together with the warehouse is modelled by `Session`.
  Each field answers one of the queries the script issues for a
  configuration.  `exceptRows` is the row list produced by the configured
  custom EXCEPT (set-difference) query; per the SQL engine contract a
  `LIMIT n` suffix returns the first `n` of those rows, and
  `SELECT COUNT(*)` over the query returns their number.  Each query can
  instead fail, raising an exception whose message is carried by the
  corresponding `Option String` field (`none` = success).
* The row counts of the hub, link, satellite and business-view tables are
  part of the warehouse state (`hubRows`, `linkRows`, `satRows`, `bizRows`)
  even though the script never queries them; this lets us state what the
  emitted counts do NOT depend on.
* `json.dumps` of the per-table lost-records dictionary is abstracted: the
  emitted `LOST_RECORDS_DETAILS` cell carries the `LostRecords` structure
  itself rather than its serialized text.
-/

namespace DataVault

/-- A JSON value, as produced by parsing the warehouse's `TO_JSON` output. -/
inductive JVal where
  | jnull
  | jbool (b : Bool)
  | jstr (s : String)
  | jnum (n : Int)
  | jobj (fields : List (String × JVal))
  | jarr (elems : List JVal)


/-- A Python dictionary with string keys and JSON values. -/
abbrev JDict := List (String × JVal)

/-- Python `d[key]`: first binding of `key`. -/
def dictLookup : JDict → String → Option JVal
  | [], _ => none
  | (k1, v1) :: rest, key => if k1 = key then some v1 else dictLookup rest key

/-- Python `d[key] = v`: update an existing binding in place, else append. -/
def dictSet : JDict → String → JVal → JDict
  | [], key, v => [(key, v)]
  | (k1, v1) :: rest, key, v =>
    if k1 = key then (key, v) :: rest else (k1, v1) :: dictSet rest key v

/-- One row returned by the JSON retrieval query.  `RECORD_JSON` is either
falsy (`empty`), a string that `json.loads` rejects (`malformed`, carrying
the decoder's message), or a string parsing to the object `parsed d`. -/
inductive JsonRow where
  | empty
  | malformed (errMsg : String)
  | parsed (d : JDict)


/-- One entry of the script's `table_configs` list.  All keys the script
reads are present; `has_deleted_column` models `"deleted_column" in config`
and `custom_except_query` models `config.get("custom_except_query")`
(`none` = key absent). -/
structure Config where
  source_table : String
  hub_table : String
  cur_satellite_table : String
  bizview_table : String
  source_key : String
  hub_key : String
  satellite_hash_key : String
  bizview_key : String
  has_deleted_column : Bool
  deleted_column : String
  columns_to_compare : List String
  custom_except_query : Option String


/-- Python truthiness of `config.get("custom_except_query")`: an absent key
and the empty string are falsy. -/
def truthyOpt : Option String → Bool
  | none => false
  | some s => !s.isEmpty

/-- The warehouse/session state relevant to one configuration: the answers
the session gives to the queries the script issues for it. -/
structure Session where
  /-- `SELECT COUNT(*)` over the source table. -/
  sourceRows : Nat
  /-- `SELECT COUNT(*) ... WHERE deleted_column = FALSE` over the source table. -/
  nonDeletedRows : Nat
  /-- Row count of the hub table (never queried by the script). -/
  hubRows : Nat
  /-- Row count of the link table (never queried by the script). -/
  linkRows : Nat
  /-- Row count of the current satellite table (never queried by the script). -/
  satRows : Nat
  /-- Row count of the business view (never queried by the script). -/
  bizRows : Nat
  /-- Rows of the configured custom EXCEPT query, in engine order. -/
  exceptRows : List JsonRow
  /-- Exception message when the source COUNT query raises. -/
  sourceCountFails : Option String
  /-- Exception message when the non-deleted COUNT query raises. -/
  nonDeletedFails : Option String
  /-- Exception message when `SELECT COUNT(*) FROM (custom_except_query)` raises. -/
  countFails : Option String
  /-- Exception message when the JSON retrieval query raises. -/
  jsonQueryFails : Option String


/-- The `__metadata` object attached to a successfully parsed record
(script lines 144-150), including `record_type`. -/
def metaObjFull (c : Config) : JVal :=
  JVal.jobj [
    ("source_table", JVal.jstr c.source_table),
    ("hub_table", JVal.jstr c.hub_table),
    ("satellite_table", JVal.jstr c.cur_satellite_table),
    ("bizview_table", JVal.jstr c.bizview_table),
    ("record_type", JVal.jstr "missing")]

/-- The `__metadata` object attached to the error dictionaries (script
lines 161-166, 172-177, 198-203): the four table names, no `record_type`. -/
def metaObjErr (c : Config) : JVal :=
  JVal.jobj [
    ("source_table", JVal.jstr c.source_table),
    ("hub_table", JVal.jstr c.hub_table),
    ("satellite_table", JVal.jstr c.cur_satellite_table),
    ("bizview_table", JVal.jstr c.bizview_table)]

/-- Processing of one row of the JSON retrieval query (script lines 136-179):
a parsed record gets `__metadata` and `__record_separator` keys added; a
malformed or empty `RECORD_JSON` yields an error dictionary. -/
def recordOfRow (c : Config) : JsonRow → JDict
  | JsonRow.parsed d =>
    dictSet (dictSet d "__metadata" (metaObjFull c)) "__record_separator" (JVal.jbool true)
  | JsonRow.malformed e =>
    [("error", JVal.jstr ("Failed to parse JSON: " ++ e)),
     ("__metadata", metaObjErr c),
     ("__record_separator", JVal.jbool true)]
  | JsonRow.empty =>
    [("error", JVal.jstr "Empty JSON result"),
     ("__metadata", metaObjErr c),
     ("__record_separator", JVal.jbool true)]

/-- The sample-size note appended when the total missing count exceeds the
limit (script lines 181-190). -/
def noteDict (c : Config) (missingCount limit : Nat) : JDict :=
  [("NOTE", JVal.jstr ("Showing " ++ toString limit ++ " of " ++ toString missingCount
      ++ " total missing records")),
   ("source_table", JVal.jstr c.source_table),
   ("hub_table", JVal.jstr c.hub_table),
   ("satellite_table", JVal.jstr c.cur_satellite_table),
   ("bizview_table", JVal.jstr c.bizview_table)]

/-- `missing_count` as computed at script lines 108-115: the COUNT(*) of the
EXCEPT query, or 0 when that query raises (the exception is caught). -/
def missingCountOf (s : Session) : Nat :=
  match s.countFails with
  | some _ => 0
  | none => s.exceptRows.length

/-- `extract_missing_records(session, config, limit=10)` (script lines
83-228).  Returns the pair `(missing_count, missing_records)`.  With no
truthy custom EXCEPT query it returns `(0, [])`.  Otherwise the count query
runs (a failure is swallowed as count 0), then the JSON retrieval query with
`LIMIT limit`; if that raises, a singleton error dictionary is returned,
else each returned row is converted and the sample-size note is appended
when `missing_count > limit`. -/
def extract_missing_records (s : Session) (c : Config) (limit : Nat := 10) :
    Nat × List JDict :=
  if truthyOpt c.custom_except_query = false then
    (0, [])
  else
    let missing_count := missingCountOf s
    match s.jsonQueryFails with
    | some e =>
      (missing_count,
       [[("error", JVal.jstr ("JSON processing error: " ++ e)),
         ("__metadata", metaObjErr c)]])
    | none =>
      let missing_records := (s.exceptRows.take limit).map (recordOfRow c)
      if limit < missing_count then
        (missing_count, missing_records ++ [noteDict c missing_count limit])
      else
        (missing_count, missing_records)

/-- The single entry of `table_configs` (script lines 8-41). -/
def entityConfig : Config :=
  { source_table := "SOURCE_DB.SOURCE_SCHEMA.ENTITY_TABLE",
    hub_table := "DV_DB.RAWVAULT.H_ENTITY",
    cur_satellite_table := "DV_DB.RAWVAULT.S_ENTITY_LROC_INFO_CURRENT",
    bizview_table := "DV_DB.BIZVIEWS.FACT_ENTITY",
    source_key := "ID",
    hub_key := "ENTITY_ID",
    satellite_hash_key := "HK_H_ENTITY",
    bizview_key := "ENTITY_ID",
    has_deleted_column := true,
    deleted_column := "_IS_DELETED",
    columns_to_compare := [
      "NAME", "CODE", "STATUS", "ACTIVE_DATE", "ADDRESS", "CITY", "STATE", "ZIP",
      "PHONE", "EMAIL", "TIMEZONE", "TYPE_ID", "REGION_ID", "MANAGER_ID",
      "REFERENCE_ID", "EXTERNAL_ID", "STATUS_CODE", "CREATED_BY", "UPDATED_BY",
      "UNIQUE_ID", "_SYNCED_AT"],
    custom_except_query := some
      "\nSELECT ID, NAME, CODE, STATUS, ACTIVE_DATE, ADDRESS, CITY, STATE, ZIP,\n       PHONE, EMAIL, TIMEZONE, TYPE_ID, REGION_ID, MANAGER_ID,\n       REFERENCE_ID, EXTERNAL_ID, STATUS_CODE, CREATED_BY, UPDATED_BY, \n       UNIQUE_ID, _SYNCED_AT\nFROM SOURCE_DB.SOURCE_SCHEMA.ENTITY_TABLE\nEXCEPT\nSELECT E.ENTITY_ID, NAME, CODE, STATUS, ACTIVE_DATE, ADDRESS, CITY, STATE, ZIP,\n       PHONE, EMAIL, TIMEZONE, TYPE_ID, REGION_ID, MANAGER_ID,\n       REFERENCE_ID, EXTERNAL_ID, STATUS_CODE, CREATED_BY, UPDATED_BY, \n       UNIQUE_ID, _SYNCED_AT\nFROM DV_DB.RAWVAULT.H_ENTITY E\nJOIN DV_DB.RAWVAULT.S_ENTITY_LROC_INFO SE ON E.HK_H_ENTITY = SE.HK_H_ENTITY\n" }

/-- The static configuration list `table_configs` (script lines 8-41). -/
def table_configs : List Config := [entityConfig]

/-- The per-table entry of the `lost_records` dictionary (script lines
311-319). -/
structure LostRecords where
  source_to_hub : List JDict
  missing_count : Nat
  hub_to_satellite : List JDict
  hub_to_link : List JDict
  link_to_satellite : List JDict
  satellite_to_bizview : List JDict
  deleted : Int

/-- One summary row, i.e. one 18-tuple appended to `results` (script lines
334-353), with its components named after the positions of `result_schema`.
All counts are integers (Python subtraction may go negative); the
`LOST_RECORDS_DETAILS` component carries the lost-records dictionary that
the script serializes with `json.dumps`. -/
structure ResultRow where
  TABLE_NAME : String
  SOURCE_TABLE : String
  HUB_TABLE : String
  SATELLITE_TABLE : String
  BIZVIEW_TABLE : String
  SOURCE_COUNT : Int
  HUB_COUNT : Int
  LINK_COUNT : Int
  CURRENT_SATELLITE_COUNT : Int
  BIZVIEW_COUNT : Int
  SOURCE_TO_HUB_LOSS : Int
  HUB_TO_LINK_LOSS : Int
  HUB_TO_SAT_LOSS : Int
  LINK_TO_SAT_LOSS : Int
  SAT_TO_BIZVIEW_LOSS : Int
  TOTAL_ROWS_LOST : Int
  DELETED_RECORDS : Int
  LOST_RECORDS_DETAILS : LostRecords

/-- `source_count` (script lines 284-291): COUNT(*) of the source table,
or 0 when the query raises. -/
def sourceCountOf (s : Session) : Int :=
  match s.sourceCountFails with
  | some _ => 0
  | none => (s.sourceRows : Int)

/-- `non_deleted_count` (script lines 293-305): the filtered count when the
configuration has a `deleted_column` and the query succeeds; on a failure
(or without the column) the variable keeps the value `source_count`. -/
def nonDeletedCountOf (s : Session) (c : Config) : Int :=
  if c.has_deleted_column then
    match s.nonDeletedFails with
    | some _ => sourceCountOf s
    | none => (s.nonDeletedRows : Int)
  else sourceCountOf s

/-- `deleted_count` (script lines 293-305): `source_count - non_deleted_count`
when the filtered query succeeds, else 0. -/
def deletedCountOf (s : Session) (c : Config) : Int :=
  if c.has_deleted_column then
    match s.nonDeletedFails with
    | some _ => 0
    | none => sourceCountOf s - (s.nonDeletedRows : Int)
  else 0

/-- The loop body of `main` for one configuration (script lines 267-353):
count queries, `extract_missing_records`, the `lost_records` entry, the
derived metrics, and the appended 18-tuple. -/
def processConfig (s : Session) (c : Config) : ResultRow :=
  let table_name := (c.source_table.splitOn ".").getLastD ""
  let non_deleted_count := nonDeletedCountOf s c
  let deleted_count := deletedCountOf s c
  let extracted := extract_missing_records s c
  let source_hub_loss : Int := (extracted.1 : Int)
  let lost : LostRecords :=
    { source_to_hub := extracted.2,
      missing_count := extracted.1,
      hub_to_satellite := [],
      hub_to_link := [],
      link_to_satellite := [],
      satellite_to_bizview := [],
      deleted := deleted_count }
  let hub_count := non_deleted_count - source_hub_loss
  let hub_to_link_loss : Int := 0
  let hub_to_sat_loss : Int := 0
  let link_to_sat_loss : Int := 0
  let sat_to_bizview_loss : Int := 0
  let total_rows_lost :=
    source_hub_loss + hub_to_link_loss + hub_to_sat_loss + link_to_sat_loss
      + sat_to_bizview_loss
  { TABLE_NAME := table_name,
    SOURCE_TABLE := c.source_table,
    HUB_TABLE := c.hub_table,
    SATELLITE_TABLE := c.cur_satellite_table,
    BIZVIEW_TABLE := c.bizview_table,
    SOURCE_COUNT := non_deleted_count,
    HUB_COUNT := hub_count,
    LINK_COUNT := hub_count,
    CURRENT_SATELLITE_COUNT := hub_count,
    BIZVIEW_COUNT := hub_count,
    SOURCE_TO_HUB_LOSS := source_hub_loss,
    HUB_TO_LINK_LOSS := hub_to_link_loss,
    HUB_TO_SAT_LOSS := hub_to_sat_loss,
    LINK_TO_SAT_LOSS := link_to_sat_loss,
    SAT_TO_BIZVIEW_LOSS := sat_to_bizview_loss,
    TOTAL_ROWS_LOST := total_rows_lost,
    DELETED_RECORDS := deleted_count,
    LOST_RECORDS_DETAILS := lost }

/-- The `results` list built by the loop of `main` (script lines 263-357):
one appended row per configuration, in list order.  `sql c` gives the
session's answers to the queries issued for configuration `c`. -/
def main_results (sql : Config → Session) : List ResultRow :=
  table_configs.foldl (fun acc c => acc ++ [processConfig (sql c) c]) []

/-- `main` (script lines 230-395): the rows of the returned DataFrame.
`createDfFails` models `session.create_dataframe` raising at line 361, in
which case an empty DataFrame with the same schema is returned. -/
def main (sql : Config → Session) (createDfFails : Bool) : List ResultRow :=
  if createDfFails then [] else main_results sql

/-- A Snowpark field type as used in `result_schema`. -/
inductive SFType where
  | sfString
  | sfLong
  | sfVariant
  deriving DecidableEq

/-- `result_schema` (script lines 241-260): the 18 named, typed fields of
the output table. -/
def result_schema : List (String × SFType) :=
  [("TABLE_NAME", SFType.sfString),
   ("SOURCE_TABLE", SFType.sfString),
   ("HUB_TABLE", SFType.sfString),
   ("SATELLITE_TABLE", SFType.sfString),
   ("BIZVIEW_TABLE", SFType.sfString),
   ("SOURCE_COUNT", SFType.sfLong),
   ("HUB_COUNT", SFType.sfLong),
   ("LINK_COUNT", SFType.sfLong),
   ("CURRENT_SATELLITE_COUNT", SFType.sfLong),
   ("BIZVIEW_COUNT", SFType.sfLong),
   ("SOURCE_TO_HUB_LOSS", SFType.sfLong),
   ("HUB_TO_LINK_LOSS", SFType.sfLong),
   ("HUB_TO_SAT_LOSS", SFType.sfLong),
   ("LINK_TO_SAT_LOSS", SFType.sfLong),
   ("SAT_TO_BIZVIEW_LOSS", SFType.sfLong),
   ("TOTAL_ROWS_LOST", SFType.sfLong),
   ("DELETED_RECORDS", SFType.sfLong),
   ("LOST_RECORDS_DETAILS", SFType.sfVariant)]

/-- A cell of a summary row, as handed to `create_dataframe`. -/
inductive Cell where
  | cstr (s : String)
  | cint (n : Int)
  | cvariant (v : LostRecords)

/-- The Snowpark type a cell is loaded as. -/
def Cell.sfType : Cell → SFType
  | Cell.cstr _ => SFType.sfString
  | Cell.cint _ => SFType.sfLong
  | Cell.cvariant _ => SFType.sfVariant

/-- The positional 18-tuple of a summary row, in the order it is appended
at script lines 334-353. -/
def ResultRow.toCells (r : ResultRow) : List Cell :=
  [Cell.cstr r.TABLE_NAME,
   Cell.cstr r.SOURCE_TABLE,
   Cell.cstr r.HUB_TABLE,
   Cell.cstr r.SATELLITE_TABLE,
   Cell.cstr r.BIZVIEW_TABLE,
   Cell.cint r.SOURCE_COUNT,
   Cell.cint r.HUB_COUNT,
   Cell.cint r.LINK_COUNT,
   Cell.cint r.CURRENT_SATELLITE_COUNT,
   Cell.cint r.BIZVIEW_COUNT,
   Cell.cint r.SOURCE_TO_HUB_LOSS,
   Cell.cint r.HUB_TO_LINK_LOSS,
   Cell.cint r.HUB_TO_SAT_LOSS,
   Cell.cint r.LINK_TO_SAT_LOSS,
   Cell.cint r.SAT_TO_BIZVIEW_LOSS,
   Cell.cint r.TOTAL_ROWS_LOST,
   Cell.cint r.DELETED_RECORDS,
   Cell.cvariant r.LOST_RECORDS_DETAILS]

/-! ### Helper lemmas about the embedded operations -/

theorem dictLookup_dictSet_self (d : JDict) (k : String) (v : JVal) :
    dictLookup (dictSet d k v) k = some v := by
  induction d with
  | nil => simp [dictSet, dictLookup]
  | cons p rest ih =>
    obtain ⟨k1, v1⟩ := p
    by_cases h : k1 = k
    · simp [dictSet, h, dictLookup]
    · simp [dictSet, h, dictLookup, ih]

theorem dictLookup_dictSet_ne (d : JDict) (k k2 : String) (v : JVal)
    (h : k2 ≠ k) : dictLookup (dictSet d k v) k2 = dictLookup d k2 := by
  have hne : ¬k = k2 := fun h2 => h h2.symm
  induction d with
  | nil => simp [dictSet, dictLookup, hne]
  | cons p rest ih =>
    obtain ⟨k1, v1⟩ := p
    by_cases h1 : k1 = k
    · subst h1
      simp [dictSet, dictLookup, hne]
    · simp [dictSet, h1, dictLookup, ih]

/-- Every dictionary produced from a retrieved row carries the
`__record_separator` marker. -/
theorem recordOfRow_separator (c : Config) (row : JsonRow) :
    dictLookup (recordOfRow c row) "__record_separator" = some (JVal.jbool true) := by
  cases row with
  | parsed d => simpa [recordOfRow] using dictLookup_dictSet_self ..
  | malformed e => simp [recordOfRow, dictLookup]
  | empty => simp [recordOfRow, dictLookup]

/-- The sample-size note carries no `__record_separator` marker. -/
theorem noteDict_no_separator (c : Config) (n l : Nat) :
    dictLookup (noteDict c n l) "__record_separator" = none := by
  simp [noteDict, dictLookup]

theorem extract_of_not_truthy (s : Session) (c : Config) (limit : Nat)
    (h : truthyOpt c.custom_except_query = false) :
    extract_missing_records s c limit = (0, []) := by
  simp [extract_missing_records, h]

theorem extract_of_jsonFail (s : Session) (c : Config) (limit : Nat) (e : String)
    (hq : truthyOpt c.custom_except_query = true) (hj : s.jsonQueryFails = some e) :
    extract_missing_records s c limit =
      (missingCountOf s,
       [[("error", JVal.jstr ("JSON processing error: " ++ e)),
         ("__metadata", metaObjErr c)]]) := by
  simp [extract_missing_records, hq, hj]

theorem extract_of_success (s : Session) (c : Config) (limit : Nat)
    (hq : truthyOpt c.custom_except_query = true) (hj : s.jsonQueryFails = none) :
    extract_missing_records s c limit =
      (missingCountOf s,
       (s.exceptRows.take limit).map (recordOfRow c) ++
         (if limit < missingCountOf s then [noteDict c (missingCountOf s) limit]
          else [])) := by
  unfold extract_missing_records
  rw [hq, hj]
  simp only [Bool.true_eq_false, if_false]
  split <;> simp

/-- The reported missing count is `missingCountOf` whenever a truthy custom
EXCEPT query is configured, whatever the JSON retrieval query does. -/
theorem extract_fst (s : Session) (c : Config) (limit : Nat)
    (hq : truthyOpt c.custom_except_query = true) :
    (extract_missing_records s c limit).1 = missingCountOf s := by
  cases hj : s.jsonQueryFails with
  | none => rw [extract_of_success s c limit hq hj]
  | some e => rw [extract_of_jsonFail s c limit e hq hj]

theorem foldl_append_eq_map {α β : Type} (l : List α) (f : α → β) (acc : List β) :
    l.foldl (fun a c => a ++ [f c]) acc = acc ++ l.map f := by
  induction l generalizing acc with
  | nil => simp
  | cons x xs ih => simp [ih]

theorem main_results_eq_map (sql : Config → Session) :
    main_results sql = table_configs.map (fun c => processConfig (sql c) c) := by
  simpa [main_results] using foldl_append_eq_map table_configs _ []

/-! ### Concrete warehouse states used as witnesses and counterexamples -/

set_option maxRecDepth 400000

/-- A session in which every query succeeds, the EXCEPT query is empty, and
the hub/link/satellite/bizview tables hold 5/4/2/1 rows. -/
def sessionOk : Session :=
  { sourceRows := 3, nonDeletedRows := 3, hubRows := 5, linkRows := 4,
    satRows := 2, bizRows := 1, exceptRows := [],
    sourceCountFails := none, nonDeletedFails := none,
    countFails := none, jsonQueryFails := none }

/-- Like `sessionOk` but the EXCEPT query returns one parsed record. -/
def sessionOneParsed : Session :=
  { sessionOk with exceptRows := [JsonRow.parsed [("ID", JVal.jstr "1")]] }

/-- Like `sessionOk` but the EXCEPT query returns three rows. -/
def sessionThree : Session :=
  { sessionOk with exceptRows :=
      [JsonRow.parsed [("ID", JVal.jstr "1")],
       JsonRow.parsed [("ID", JVal.jstr "2")],
       JsonRow.parsed [("ID", JVal.jstr "3")]] }

/-- Like `sessionOk` but `SELECT COUNT(*) FROM (custom_except_query)` raises. -/
def sessionCountFail : Session :=
  { sessionOk with countFails := some "count boom" }

/-- Like `sessionOk` but the JSON retrieval query raises. -/
def sessionJsonFail : Session :=
  { sessionOk with jsonQueryFails := some "json boom" }

/-- A constant query oracle for `main`. -/
def sqlConst : Config → Session := fun _ => sessionOk

/-! ### Claims -/

/-- Claim C1, as stated, is false: the emitted HUB_COUNT, LINK_COUNT,
CURRENT_SATELLITE_COUNT and BIZVIEW_COUNT are not the row counts of the
hub, link, satellite and business-view tables.  In `sessionOk` those tables
hold 5, 4, 2 and 1 rows, yet every emitted count field is 3. -/
theorem C1_counterexample :
    (processConfig sessionOk entityConfig).HUB_COUNT ≠ ((sessionOk.hubRows : Int)) ∧
    (processConfig sessionOk entityConfig).LINK_COUNT ≠ ((sessionOk.linkRows : Int)) ∧
    (processConfig sessionOk entityConfig).CURRENT_SATELLITE_COUNT
      ≠ ((sessionOk.satRows : Int)) ∧
    (processConfig sessionOk entityConfig).BIZVIEW_COUNT ≠ ((sessionOk.bizRows : Int)) := by
  refine ⟨by decide, by decide, by decide, by decide⟩

/-- Claim C1, amended: the emitted HUB_COUNT, LINK_COUNT,
CURRENT_SATELLITE_COUNT and BIZVIEW_COUNT fields all hold the same derived
placeholder value, the non-deleted source count minus SOURCE_TO_HUB_LOSS;
no rows are counted at the hub, link, satellite or business-view layers,
and the emitted row does not depend on those tables' row counts. -/
theorem C1_placeholder_counts (s : Session) (c : Config) (h l t b : Nat) :
    processConfig { s with hubRows := h, linkRows := l, satRows := t, bizRows := b } c
        = processConfig s c ∧
    (processConfig s c).HUB_COUNT
        = (processConfig s c).SOURCE_COUNT - (processConfig s c).SOURCE_TO_HUB_LOSS ∧
    (processConfig s c).LINK_COUNT = (processConfig s c).HUB_COUNT ∧
    (processConfig s c).CURRENT_SATELLITE_COUNT = (processConfig s c).HUB_COUNT ∧
    (processConfig s c).BIZVIEW_COUNT = (processConfig s c).HUB_COUNT ∧
    (processConfig s c).SOURCE_COUNT = nonDeletedCountOf s c := by
  exact ⟨rfl, rfl, rfl, rfl, rfl, rfl⟩

/-- Claim C2: for a configuration carrying a custom EXCEPT query, the
SOURCE_TO_HUB_LOSS value of the summary row is the first component of the
pair returned by `extract_missing_records`, which (when the COUNT query
succeeds) is the row count of the set-difference query. -/
theorem C2_source_to_hub_loss (s : Session) (c : Config)
    (hq : truthyOpt c.custom_except_query = true) (hcf : s.countFails = none) :
    (processConfig s c).SOURCE_TO_HUB_LOSS = ((extract_missing_records s c).1 : Int) ∧
    (extract_missing_records s c).1 = s.exceptRows.length := by
  refine ⟨rfl, ?_⟩
  rw [extract_fst s c 10 hq]
  simp [missingCountOf, hcf]

/-- Witness for C2 at a concrete session. -/
theorem C2_source_to_hub_loss_witness :
    (processConfig sessionThree entityConfig).SOURCE_TO_HUB_LOSS
        = ((extract_missing_records sessionThree entityConfig).1 : Int) ∧
    (extract_missing_records sessionThree entityConfig).1
        = sessionThree.exceptRows.length :=
  C2_source_to_hub_loss sessionThree entityConfig (by decide) rfl

/-- The SOURCE_TABLE component of a summary row is its configuration's
`source_table`, whatever the session answers. -/
theorem processConfig_SOURCE_TABLE (s : Session) (c : Config) :
    (processConfig s c).SOURCE_TABLE = c.source_table := rfl

/-- Claim C3: when the final DataFrame is created successfully, `main`
returns exactly one summary row per entry of `table_configs`: the result
has one row per configuration, and each configured source table is the
SOURCE_TABLE of exactly one returned row. -/
theorem C3_one_row_per_config (sql : Config → Session) (c : Config)
    (hc : c ∈ table_configs) :
    (main sql false).length = table_configs.length ∧
    ((main sql false).filter
        (fun r => r.SOURCE_TABLE == c.source_table)).length = 1 := by
  constructor
  · simp [main, main_results_eq_map]
  · simp only [table_configs, List.mem_singleton] at hc
    subst hc
    simp [main, main_results_eq_map, table_configs, List.filter,
      processConfig_SOURCE_TABLE]

/-- Witness for C3 at a concrete oracle and the configured table pair. -/
theorem C3_one_row_per_config_witness :
    (main sqlConst false).length = table_configs.length ∧
    ((main sqlConst false).filter
        (fun r => r.SOURCE_TABLE == entityConfig.source_table)).length = 1 :=
  C3_one_row_per_config sqlConst entityConfig (by simp [table_configs])

/-- Claim C4, as stated, is false: a record returned by the warehouse for
the set-difference query is not passed through with no keys added.  For the
single parsed record with key ID, the stored dictionary has the two
additional keys `__metadata` and `__record_separator`. -/
theorem C4_counterexample :
    ((extract_missing_records sessionOneParsed entityConfig).2).headD []
      ≠ [("ID", JVal.jstr "1")] := by
  have hv : ((extract_missing_records sessionOneParsed entityConfig).2).headD []
      = [("ID", JVal.jstr "1"),
         ("__metadata", metaObjFull entityConfig),
         ("__record_separator", JVal.jbool true)] := rfl
  rw [hv]
  intro h
  simpa using congrArg List.length h

/-- Claim C4, amended: each record the warehouse returns for the
set-difference query is stored in the emitted details with its original
keys and values unchanged, plus exactly the two bookkeeping keys
`__metadata` (the table metadata) and `__record_separator` (true) added. -/
theorem C4_passthrough (s : Session) (c : Config) (limit i : Nat) (d : JDict)
    (hq : truthyOpt c.custom_except_query = true) (hj : s.jsonQueryFails = none)
    (hi : i < limit) (hr : s.exceptRows[i]? = some (JsonRow.parsed d)) :
    ((extract_missing_records s c limit).2)[i]?
        = some (recordOfRow c (JsonRow.parsed d)) ∧
    (∀ k, k ≠ "__metadata" → k ≠ "__record_separator" →
      dictLookup (recordOfRow c (JsonRow.parsed d)) k = dictLookup d k) ∧
    dictLookup (recordOfRow c (JsonRow.parsed d)) "__metadata" = some (metaObjFull c) ∧
    dictLookup (recordOfRow c (JsonRow.parsed d)) "__record_separator"
        = some (JVal.jbool true) := by
  have hlen : i < s.exceptRows.length := by
    have := List.getElem?_eq_some.mp hr
    exact this.1
  refine ⟨?_, ?_, ?_, ?_⟩
  · rw [extract_of_success s c limit hq hj]
    rw [List.getElem?_append]
    have htk : i < (List.map (recordOfRow c) (s.exceptRows.take limit)).length := by
      simp [List.length_take]
      omega
    rw [if_pos htk, List.getElem?_map, List.getElem?_take, if_pos hi, hr]
    rfl
  · intro k hk1 hk2
    rw [recordOfRow]
    rw [dictLookup_dictSet_ne _ _ _ _ hk2, dictLookup_dictSet_ne _ _ _ _ hk1]
  · rw [recordOfRow]
    rw [dictLookup_dictSet_ne _ _ _ _ (by decide), dictLookup_dictSet_self]
  · rw [recordOfRow, dictLookup_dictSet_self]

/-- Witness for C4 at a concrete session with one parsed record. -/
theorem C4_passthrough_witness :
    ((extract_missing_records sessionOneParsed entityConfig 10).2)[0]?
        = some (recordOfRow entityConfig (JsonRow.parsed [("ID", JVal.jstr "1")])) ∧
    (∀ k, k ≠ "__metadata" → k ≠ "__record_separator" →
      dictLookup (recordOfRow entityConfig (JsonRow.parsed [("ID", JVal.jstr "1")])) k
        = dictLookup [("ID", JVal.jstr "1")] k) ∧
    dictLookup (recordOfRow entityConfig (JsonRow.parsed [("ID", JVal.jstr "1")]))
        "__metadata" = some (metaObjFull entityConfig) ∧
    dictLookup (recordOfRow entityConfig (JsonRow.parsed [("ID", JVal.jstr "1")]))
        "__record_separator" = some (JVal.jbool true) :=
  C4_passthrough sessionOneParsed entityConfig 10 0 [("ID", JVal.jstr "1")]
    (by decide) rfl (by decide) rfl

/-- Claim C5: with a truthy custom EXCEPT query and a successful retrieval,
the emitted details hold the records of the set-difference query truncated
by `LIMIT limit` before JSON conversion - at most `limit` sampled rows -
plus at most one extra (note) entry, however many missing rows exist; the
limit defaults to 10. -/
theorem C5_sample_limited (s : Session) (c : Config) (limit : Nat)
    (hq : truthyOpt c.custom_except_query = true) (hj : s.jsonQueryFails = none) :
    ∃ extra,
      (extract_missing_records s c limit).2
          = (s.exceptRows.take limit).map (recordOfRow c) ++ extra ∧
      extra.length ≤ 1 ∧
      ((s.exceptRows.take limit).map (recordOfRow c)).length ≤ limit ∧
      extract_missing_records s c = extract_missing_records s c 10 := by
  refine ⟨if limit < missingCountOf s then [noteDict c (missingCountOf s) limit]
    else [], ?_, ?_, ?_, rfl⟩
  · rw [extract_of_success s c limit hq hj]
  · split <;> simp
  · simp [List.length_take]

/-- Witness for C5: three missing rows, limit 2, at most 2 sampled. -/
theorem C5_sample_limited_witness :
    ∃ extra,
      (extract_missing_records sessionThree entityConfig 2).2
          = (sessionThree.exceptRows.take 2).map (recordOfRow entityConfig) ++ extra ∧
      extra.length ≤ 1 ∧
      ((sessionThree.exceptRows.take 2).map (recordOfRow entityConfig)).length ≤ 2 ∧
      extract_missing_records sessionThree entityConfig
        = extract_missing_records sessionThree entityConfig 10 :=
  C5_sample_limited sessionThree entityConfig 2 (by decide) rfl

/-- Claim C6: in every summary row the four downstream loss fields are 0,
TOTAL_ROWS_LOST equals SOURCE_TO_HUB_LOSS, the four layer-count fields all
equal SOURCE_COUNT minus SOURCE_TO_HUB_LOSS, and (for a configuration with
a deleted column whose filtered count succeeds) SOURCE_COUNT is the
non-deleted source row count. -/
theorem C6_summary_invariant (s : Session) (c : Config)
    (hd : c.has_deleted_column = true) (hn : s.nonDeletedFails = none) :
    (processConfig s c).HUB_TO_LINK_LOSS = 0 ∧
    (processConfig s c).HUB_TO_SAT_LOSS = 0 ∧
    (processConfig s c).LINK_TO_SAT_LOSS = 0 ∧
    (processConfig s c).SAT_TO_BIZVIEW_LOSS = 0 ∧
    (processConfig s c).TOTAL_ROWS_LOST = (processConfig s c).SOURCE_TO_HUB_LOSS ∧
    (processConfig s c).HUB_COUNT
        = (processConfig s c).SOURCE_COUNT - (processConfig s c).SOURCE_TO_HUB_LOSS ∧
    (processConfig s c).LINK_COUNT
        = (processConfig s c).SOURCE_COUNT - (processConfig s c).SOURCE_TO_HUB_LOSS ∧
    (processConfig s c).CURRENT_SATELLITE_COUNT
        = (processConfig s c).SOURCE_COUNT - (processConfig s c).SOURCE_TO_HUB_LOSS ∧
    (processConfig s c).BIZVIEW_COUNT
        = (processConfig s c).SOURCE_COUNT - (processConfig s c).SOURCE_TO_HUB_LOSS ∧
    (processConfig s c).SOURCE_COUNT = (s.nonDeletedRows : Int) := by
  refine ⟨rfl, rfl, rfl, rfl, ?_, rfl, rfl, rfl, rfl, ?_⟩
  · show (extract_missing_records s c).1 + 0 + 0 + 0 + 0
        = ((extract_missing_records s c).1 : Int)
    omega
  · show nonDeletedCountOf s c = (s.nonDeletedRows : Int)
    simp [nonDeletedCountOf, hd, hn]

/-- Witness for C6 at a concrete session and the configured table pair. -/
theorem C6_summary_invariant_witness :
    (processConfig sessionOk entityConfig).HUB_TO_LINK_LOSS = 0 ∧
    (processConfig sessionOk entityConfig).HUB_TO_SAT_LOSS = 0 ∧
    (processConfig sessionOk entityConfig).LINK_TO_SAT_LOSS = 0 ∧
    (processConfig sessionOk entityConfig).SAT_TO_BIZVIEW_LOSS = 0 ∧
    (processConfig sessionOk entityConfig).TOTAL_ROWS_LOST
        = (processConfig sessionOk entityConfig).SOURCE_TO_HUB_LOSS ∧
    (processConfig sessionOk entityConfig).HUB_COUNT
        = (processConfig sessionOk entityConfig).SOURCE_COUNT
            - (processConfig sessionOk entityConfig).SOURCE_TO_HUB_LOSS ∧
    (processConfig sessionOk entityConfig).LINK_COUNT
        = (processConfig sessionOk entityConfig).SOURCE_COUNT
            - (processConfig sessionOk entityConfig).SOURCE_TO_HUB_LOSS ∧
    (processConfig sessionOk entityConfig).CURRENT_SATELLITE_COUNT
        = (processConfig sessionOk entityConfig).SOURCE_COUNT
            - (processConfig sessionOk entityConfig).SOURCE_TO_HUB_LOSS ∧
    (processConfig sessionOk entityConfig).BIZVIEW_COUNT
        = (processConfig sessionOk entityConfig).SOURCE_COUNT
            - (processConfig sessionOk entityConfig).SOURCE_TO_HUB_LOSS ∧
    (processConfig sessionOk entityConfig).SOURCE_COUNT
        = ((sessionOk.nonDeletedRows : Int)) :=
  C6_summary_invariant sessionOk entityConfig rfl rfl

/-- Claim C7, as stated, is false: a failure of the COUNT query over the
set-difference is a query failure, yet `extract_missing_records` swallows
it and returns `(0, [])` - no error dictionary at all - when the JSON
retrieval succeeds on an empty row set. -/
theorem C7_counterexample :
    sessionCountFail.countFails = some "count boom" ∧
    extract_missing_records sessionCountFail entityConfig = (0, []) :=
  ⟨rfl, rfl⟩

/-- Claim C7, amended: `extract_missing_records` always returns a
`(count, records)` pair; with no truthy custom EXCEPT query it returns
`(0, [])`; when the JSON retrieval query fails it returns a list holding a
single error dictionary carrying the table metadata; but a failure of the
COUNT query alone is swallowed, reporting missing count 0 rather than an
error dictionary. -/
theorem C7_totality (s : Session) (c : Config) (limit : Nat) (e1 e2 : String) :
    (truthyOpt c.custom_except_query = false →
      extract_missing_records s c limit = (0, [])) ∧
    (truthyOpt c.custom_except_query = true → s.jsonQueryFails = some e1 →
      extract_missing_records s c limit
        = (missingCountOf s,
           [[("error", JVal.jstr ("JSON processing error: " ++ e1)),
             ("__metadata", metaObjErr c)]])) ∧
    (truthyOpt c.custom_except_query = true → s.countFails = some e2 →
      s.jsonQueryFails = none →
      (extract_missing_records s c limit).1 = 0) := by
  refine ⟨fun h => extract_of_not_truthy s c limit h,
    fun hq hj => extract_of_jsonFail s c limit e1 hq hj,
    fun hq hc hj => ?_⟩
  rw [extract_fst s c limit hq]
  simp [missingCountOf, hc]

/-- Witness for C7 at a concrete session whose JSON retrieval query fails. -/
theorem C7_totality_witness :
    extract_missing_records sessionJsonFail entityConfig 10
      = (missingCountOf sessionJsonFail,
         [[("error", JVal.jstr ("JSON processing error: " ++ "json boom")),
           ("__metadata", metaObjErr entityConfig)]]) :=
  (C7_totality sessionJsonFail entityConfig 10 "json boom" "x").2.1 (by decide) rfl

/-- Claim C8: `main` iterates the static configuration list in order: the
`results` list is exactly the image of `table_configs` in list order - the
row at index `i` comes from the configuration at index `i` - and no other
configuration contributes a row. -/
theorem C8_iteration_order (sql : Config → Session) (i : Nat)
    (hi : i < table_configs.length) :
    main_results sql = table_configs.map (fun c => processConfig (sql c) c) ∧
    (main_results sql).length = table_configs.length ∧
    (main_results sql)[i]?
      = some (processConfig (sql (table_configs.get ⟨i, hi⟩))
          (table_configs.get ⟨i, hi⟩)) := by
  refine ⟨main_results_eq_map sql, ?_, ?_⟩
  · rw [main_results_eq_map]; simp
  · rw [main_results_eq_map, List.getElem?_map]
    simp [List.getElem?_eq_getElem hi]

/-- Witness for C8 at a concrete oracle and index 0. -/
theorem C8_iteration_order_witness :
    main_results sqlConst = table_configs.map (fun c => processConfig (sqlConst c) c) ∧
    (main_results sqlConst).length = table_configs.length ∧
    (main_results sqlConst)[0]?
      = some (processConfig (sqlConst (table_configs.get ⟨0, by decide⟩))
          (table_configs.get ⟨0, by decide⟩)) :=
  C8_iteration_order sqlConst 0 (by decide)

/-- Claim C9: every summary row `main` produces carries exactly the 18
fields of `result_schema`, in its declared order from TABLE_NAME to
LOST_RECORDS_DETAILS and with its declared types; and when building the
final DataFrame fails, `main` returns an empty DataFrame over that same
schema. -/
theorem C9_schema_conformance (sql : Config → Session) (df : Bool) (r : ResultRow)
    (_hr : r ∈ main sql df) :
    (ResultRow.toCells r).length = 18 ∧
    result_schema.length = 18 ∧
    (ResultRow.toCells r).map Cell.sfType = result_schema.map Prod.snd ∧
    result_schema.map Prod.fst =
      ["TABLE_NAME", "SOURCE_TABLE", "HUB_TABLE", "SATELLITE_TABLE",
       "BIZVIEW_TABLE", "SOURCE_COUNT", "HUB_COUNT", "LINK_COUNT",
       "CURRENT_SATELLITE_COUNT", "BIZVIEW_COUNT", "SOURCE_TO_HUB_LOSS",
       "HUB_TO_LINK_LOSS", "HUB_TO_SAT_LOSS", "LINK_TO_SAT_LOSS",
       "SAT_TO_BIZVIEW_LOSS", "TOTAL_ROWS_LOST", "DELETED_RECORDS",
       "LOST_RECORDS_DETAILS"] ∧
    main sql true = [] :=
  ⟨rfl, rfl, rfl, rfl, rfl⟩

/-- Witness for C9 at the row emitted for the configured table pair. -/
theorem C9_schema_conformance_witness :
    (ResultRow.toCells (processConfig (sqlConst entityConfig) entityConfig)).length = 18 ∧
    result_schema.length = 18 ∧
    (ResultRow.toCells (processConfig (sqlConst entityConfig) entityConfig)).map
        Cell.sfType = result_schema.map Prod.snd ∧
    result_schema.map Prod.fst =
      ["TABLE_NAME", "SOURCE_TABLE", "HUB_TABLE", "SATELLITE_TABLE",
       "BIZVIEW_TABLE", "SOURCE_COUNT", "HUB_COUNT", "LINK_COUNT",
       "CURRENT_SATELLITE_COUNT", "BIZVIEW_COUNT", "SOURCE_TO_HUB_LOSS",
       "HUB_TO_LINK_LOSS", "HUB_TO_SAT_LOSS", "LINK_TO_SAT_LOSS",
       "SAT_TO_BIZVIEW_LOSS", "TOTAL_ROWS_LOST", "DELETED_RECORDS",
       "LOST_RECORDS_DETAILS"] ∧
    main sqlConst true = [] :=
  C9_schema_conformance sqlConst false
    (processConfig (sqlConst entityConfig) entityConfig)
    (by simp [main, main_results_eq_map, table_configs])

/-- Claim C10: on a successful extraction the returned record list holds at
most `limit + 1` entries, and the sample-size NOTE dictionary is its last
entry exactly when the total missing count exceeds the limit. -/
theorem C10_note_appended_iff (s : Session) (c : Config) (limit : Nat)
    (hq : truthyOpt c.custom_except_query = true) (hj : s.jsonQueryFails = none) :
    ((extract_missing_records s c limit).2).length ≤ limit + 1 ∧
    (limit < (extract_missing_records s c limit).1 ↔
      ((extract_missing_records s c limit).2).getLast?
        = some (noteDict c ((extract_missing_records s c limit).1) limit)) := by
  rw [extract_of_success s c limit hq hj]
  simp only [Prod.fst, Prod.snd]
  have hb : ((s.exceptRows.take limit).map (recordOfRow c)).length ≤ limit := by
    simp [List.length_take]
  constructor
  · by_cases hlt : limit < missingCountOf s
    · rw [if_pos hlt]
      simp only [List.length_append, List.length_cons, List.length_nil]
      omega
    · rw [if_neg hlt, List.append_nil]
      omega
  · constructor
    · intro hlt
      rw [if_pos hlt, List.getLast?_concat]
    · intro h
      by_contra hlt
      rw [if_neg hlt, List.append_nil] at h
      have hmem : noteDict c (missingCountOf s) limit
          ∈ (s.exceptRows.take limit).map (recordOfRow c) :=
        List.mem_of_mem_getLast? h
      obtain ⟨row, _hrow, heq⟩ := List.mem_map.mp hmem
      have h1 := recordOfRow_separator c row
      rw [heq, noteDict_no_separator] at h1
      exact Option.noConfusion h1

/-- Witness for C10: three missing rows against limit 2 append the note. -/
theorem C10_note_appended_iff_witness :
    ((extract_missing_records sessionThree entityConfig 2).2).length ≤ 2 + 1 ∧
    (2 < (extract_missing_records sessionThree entityConfig 2).1 ↔
      ((extract_missing_records sessionThree entityConfig 2).2).getLast?
        = some (noteDict entityConfig
            ((extract_missing_records sessionThree entityConfig 2).1) 2)) :=
  C10_note_appended_iff sessionThree entityConfig 2 (by decide) rfl

end DataVault
